import Mathlib

/-!
Shallow embedding of the crop-loss detection pipeline
(`server/services/gee-analysis.py`, `server/services/csv-offline-analysis.py`,
`server/services/xai-explainer.py`).

Numeric values are modelled as rationals (`ℚ`); geographic distances, which go
through trigonometric functions, are modelled as reals (`ℝ`).  Python's global
Mersenne-Twister PRNG is modelled as a pure draw stream: after `random.seed(s)`,
the k-th unit draw is `rng s k`, a rational in `[0,1]`; `random.uniform a b`
becomes `a + (b - a) * rng s k`.  Dates are modelled as integer day numbers.
Dictionaries returned by the Python functions become structures; a dictionary
key that a given code path never sets is an `Option` field left at `none`.
Presentation-only string fields (image URLs, formatted explanation text) are
not modelled; no claim mentions them.
-/

namespace CropLoss

/-- Python `int()` truncation toward zero, applied to a rational. -/
def pyInt (q : ℚ) : Int := if 0 ≤ q then q.floor else q.ceil

/-- Model of the seeded global PRNG: `rng seed k` is the k-th unit draw
after `random.seed seed`. -/
def Rng : Type := Int → Nat → ℚ

/-- `random.uniform a b` as the k-th draw after seeding: `a + (b - a) * u`. -/
def uniform (rng : Rng) (seed : Int) (k : Nat) (a b : ℚ) : ℚ :=
  a + (b - a) * rng seed k

/-- `random.choice` over a list of strings, driven by one unit draw. -/
def pyChoice (u : ℚ) (l : List String) : String :=
  l.getD (pyInt (u * l.length)).toNat "Unknown"

/-- The estimate dictionary shape shared by the three tiers.  Fields that a
tier's Python dict omits are `none` (`ndvi_value` only exists in the offline
result; `data_source`, `location`, `date` only where the code sets them). -/
structure Estimate where
  ndvi_before : Option ℚ
  ndvi_current : Option ℚ
  ndvi_value : Option ℚ
  loss_percentage : ℚ
  confidence : ℚ
  affected_area : ℚ
  estimated_value : ℚ
  damage_cause : String
  data_source : Option String
  location : Option String
  date : Option Int
  deriving DecidableEq

/-- The shared crop value-per-hectare table (`crop_values.get(crop_type, 40000)`). -/
def crop_values (crop_type : String) : ℚ :=
  if crop_type = "rice" then 40000
  else if crop_type = "wheat" then 35000
  else if crop_type = "cotton" then 60000
  else if crop_type = "sugarcane" then 80000
  else if crop_type = "maize" then 30000
  else 40000

/-- What the external imagery provider hands back for the two date windows:
scene counts for each window (available from the collections, never read by
the code) and the two regional mean NDVI values, which `getInfo` may report
as null (`none`). -/
structure ProviderData where
  scenesBefore : Nat
  scenesCurrent : Nat
  ndviBefore : Option ℚ
  ndviCurrent : Option ℚ
  deriving DecidableEq

/-- `analyze_crop_loss_real_time` (gee-analysis.py:55): the provider call
outcome is a parameter (`Except.error` = the provider raised).  A null NDVI in
either window raises; otherwise loss, confidence (`90 + random.uniform(-5,5)`,
the draw `u` passed in), damage cause, affected area and value are computed. -/
def analyze_crop_loss_real_time (provider : Except String ProviderData) (u : ℚ)
    (crop_type : String) (field_area : ℚ) : Except String Estimate :=
  match provider with
  | .error e => .error e
  | .ok d =>
    match d.ndviBefore, d.ndviCurrent with
    | some nb, some nc =>
      let loss_percentage : ℚ := if 0 < nb then max 0 ((nb - nc) / nb * 100) else 0
      let confidence : ℚ := 90 + u
      let damage_cause : String :=
        if 40 < loss_percentage then "Severe Stress"
        else if 25 < loss_percentage then "Moderate Stress"
        else if 10 < loss_percentage then "Minor Stress"
        else "Healthy"
      let affected_area : ℚ := field_area * (loss_percentage / 100)
      .ok { ndvi_before := some nb, ndvi_current := some nc, ndvi_value := none,
            loss_percentage := loss_percentage, confidence := confidence,
            affected_area := affected_area,
            estimated_value := affected_area * crop_values crop_type,
            damage_cause := damage_cause, data_source := none,
            location := none, date := none }
    | _, _ => .error "No satellite data available for this location and time period"

/-- `analyze_crop_loss_simulation` (gee-analysis.py:190): seeds the PRNG with
`int(latitude * longitude * 1000)` and draws, in order: base loss, jitter,
ndvi_before, the ndvi_current factor, confidence, and (when loss > 40) the
damage-cause choice.  Note the returned dict sets no `data_source` key. -/
def analyze_crop_loss_simulation (rng : Rng) (latitude longitude : ℚ)
    (crop_type : String) (field_area : ℚ) : Estimate :=
  let seed := pyInt (latitude * longitude * 1000)
  let base_loss := uniform rng seed 0 0 60
  let loss_percentage := max 0 (min 100 (base_loss + uniform rng seed 1 (-10) 10))
  let ndvi_before := uniform rng seed 2 (4/10) (8/10)
  let ndvi_current0 :=
    if 20 < loss_percentage then
      ndvi_before * (1 - loss_percentage / 100) * uniform rng seed 3 (8/10) (12/10)
    else
      ndvi_before * uniform rng seed 3 (9/10) (11/10)
  let ndvi_current := max (1/10) (min (9/10) ndvi_current0)
  let confidence := uniform rng seed 4 75 95
  let damage_cause :=
    if 40 < loss_percentage then
      pyChoice (rng seed 5) ["Severe Drought", "Pest/Disease", "Weather Damage"]
    else if 20 < loss_percentage then "Moderate Stress"
    else "Unknown"
  let affected_area := field_area * (loss_percentage / 100)
  { ndvi_before := some ndvi_before, ndvi_current := some ndvi_current,
    ndvi_value := none, loss_percentage := loss_percentage,
    confidence := confidence, affected_area := affected_area,
    estimated_value := affected_area * crop_values crop_type,
    damage_cause := damage_cause, data_source := none,
    location := none, date := none }

/-- `math.radians`. -/
noncomputable def radians (x : ℝ) : ℝ := x * Real.pi / 180

/-- `math.atan2 y x` (only the `x > 0` branch matters on the code's inputs;
the remaining branches follow the C/Python convention). -/
noncomputable def atan2 (y x : ℝ) : ℝ :=
  if 0 < x then Real.arctan (y / x)
  else if x < 0 then
    (if 0 ≤ y then Real.arctan (y / x) + Real.pi else Real.arctan (y / x) - Real.pi)
  else
    (if 0 < y then Real.pi / 2 else if y < 0 then -(Real.pi / 2) else 0)

/-- `haversine_distance` (csv-offline-analysis.py:6): great-circle distance in
km with Earth radius 6371. -/
noncomputable def haversine_distance (lat1 lon1 lat2 lon2 : ℝ) : ℝ :=
  let R : ℝ := 6371
  let phi1 := radians lat1
  let phi2 := radians lat2
  let delta_phi := radians (lat2 - lat1)
  let delta_lambda := radians (lon2 - lon1)
  let a := Real.sin (delta_phi / 2) ^ 2 +
    Real.cos phi1 * Real.cos phi2 * Real.sin (delta_lambda / 2) ^ 2
  let c := 2 * atan2 (Real.sqrt a) (Real.sqrt (1 - a))
  R * c

/-- Python `str.lower()` / pandas `.str.lower()`, as a structurally recursive
character map. -/
def str_lower (s : String) : String := ⟨s.data.map Char.toLower⟩

/-- One row of the historical CSV dataset. -/
structure Row where
  Village : String
  Crop_Variety : String
  Date : Int
  NDVI_Value : ℚ
  Temperature_Max_C : ℚ
  Temperature_Min_C : ℚ
  Rainfall_mm : ℚ
  Humidity_Percent : ℚ
  Wind_Speed_kmh : ℚ
  deriving DecidableEq

/-- The fixed village → coordinate table of `find_nearest_village_data`;
`village_coords.get(v, (0,0))` defaults missing villages to the origin. -/
def village_coords (v : String) : ℚ × ℚ :=
  if v = "Chevella" then (17.2, 78.1)
  else if v = "Manchal" then (17.1, 78.2)
  else if v = "Shankarpalle" then (17.3, 78.0)
  else (0, 0)

/-- The distance assigned to a row: haversine distance from the query point to
the row's village coordinate (with the `(0,0)` default). -/
noncomputable def rowDistance (latitude longitude : ℚ) (r : Row) : ℝ :=
  haversine_distance (latitude : ℝ) (longitude : ℝ)
    ((village_coords r.Village).1 : ℝ) ((village_coords r.Village).2 : ℝ)

/-- The crop/date filter of `find_nearest_village_data`: crop variety matches
case-insensitively and the row date is within ±7 days of the query date. -/
def offlineRowMatch (crop_type : String) (date : Int) (r : Row) : Bool :=
  str_lower r.Crop_Variety == str_lower crop_type &&
    decide (date - 7 ≤ r.Date) && decide (r.Date ≤ date + 7)

/-- `idxmin` selection: the first element of `x :: xs` with minimal `f`-value
(a later element replaces the current best only when strictly smaller). -/
noncomputable def foldlArgmin {α : Type} (f : α → ℝ) (x : α) (xs : List α) : α :=
  xs.foldl (fun best y => if f y < f best then y else best) x

/-- `find_nearest_village_data` (csv-offline-analysis.py:25): filter by crop
(case-insensitive) and ±7-day window; `None` when the filtered set is empty,
otherwise the first row attaining the minimum haversine distance. -/
noncomputable def find_nearest_village_data (df : List Row) (latitude longitude : ℚ)
    (crop_type : String) (date : Int) : Option Row :=
  match df.filter (offlineRowMatch crop_type date) with
  | [] => none
  | r :: rs => some (foldlArgmin (rowDistance latitude longitude) r rs)

/-- `analyze_crop_loss_offline` (csv-offline-analysis.py:48).  The CSV load
outcome is a parameter (`Except.error` = `load_offline_data` raised, which the
function's `try/except` converts to a failure result); `today` is the current
date.  `none` models the `success: False` dictionaries. -/
noncomputable def analyze_crop_loss_offline (dfLoad : Except String (List Row))
    (latitude longitude : ℚ) (crop_type : String) (field_area : ℚ)
    (today : Int) : Option Estimate :=
  match dfLoad with
  | .error _ => none
  | .ok df =>
    match find_nearest_village_data df latitude longitude crop_type today with
    | none => none
    | some nearest_data =>
      let ndvi_value := nearest_data.NDVI_Value
      let healthy_ndvi_threshold : ℚ := 6/10
      let loss0 := max 0 ((healthy_ndvi_threshold - ndvi_value) / healthy_ndvi_threshold * 100)
      let loss1 := loss0 + (if 35 < nearest_data.Temperature_Max_C then 5 else 0)
        + (if nearest_data.Rainfall_mm < 10 then 5 else 0)
        + (if nearest_data.Humidity_Percent < 30 then 3 else 0)
      let loss_percentage := min loss1 100
      let confidence : ℚ := 80 + (5 - |today - nearest_data.Date|)
      let damage_cause :=
        if 40 < loss_percentage then "Severe Stress"
        else if 25 < loss_percentage then "Moderate Stress"
        else if 10 < loss_percentage then "Minor Stress"
        else "Healthy"
      let affected_area := field_area * (loss_percentage / 100)
      some { ndvi_before := none, ndvi_current := none,
             ndvi_value := some ndvi_value, loss_percentage := loss_percentage,
             confidence := confidence, affected_area := affected_area,
             estimated_value := affected_area * crop_values (str_lower crop_type),
             damage_cause := damage_cause, data_source := some "offline_csv",
             location := some nearest_data.Village, date := some nearest_data.Date }

/-- `analyze_crop_loss` (gee-analysis.py:260): when Earth Engine is available,
try the real-time tier and swallow any exception; then try the offline tier;
when the offline result is not a success, return the simulation estimate. -/
noncomputable def analyze_crop_loss (eeAvailable : Bool)
    (provider : Except String ProviderData) (u : ℚ)
    (dfLoad : Except String (List Row)) (today : Int) (rng : Rng)
    (latitude longitude : ℚ) (crop_type : String) (field_area : ℚ) : Estimate :=
  let fallback :=
    match analyze_crop_loss_offline dfLoad latitude longitude crop_type field_area today with
    | some e => e
    | none => analyze_crop_loss_simulation rng latitude longitude crop_type field_area
  if eeAvailable then
    match analyze_crop_loss_real_time provider u crop_type field_area with
    | .ok e => e
    | .error _ => fallback
  else fallback

/-- `SimpleMLModel.predict` (xai-explainer.py:34), positional arguments
mirroring `features[0..6]`: NDVI-decline base loss plus additive weather
stress terms, clamped into [0,100]. -/
def SimpleMLModel.predict (ndvi_before ndvi_current rainfall temperature
    humidity wind_speed days_since_sowing : ℚ) : ℚ :=
  let base0 : ℚ :=
    if 0 < ndvi_before then (ndvi_before - ndvi_current) / ndvi_before * 100 else 0
  let base1 := base0 +
    (if rainfall < 5 then 15 else if 30 < rainfall then 10 else 0)
  let base2 := base1 +
    (if 38 < temperature then 12 else if temperature < 22 then 8 else 0)
  let base3 := base2 + (if 20 < wind_speed then 5 else 0)
  let base4 := base3 +
    (if humidity < 40 then 3 else if 85 < humidity then 4 else 0)
  max 0 (min 100 base4)

/-- `SimpleMLModel.get_feature_importance` (xai-explainer.py:71): the seven
hand-tuned importances, in feature order. -/
def SimpleMLModel.get_feature_importance (ndvi_before ndvi_current rainfall
    temperature humidity wind_speed days_since_sowing : ℚ) : List ℚ :=
  let ndvi_change := if 0 < ndvi_before then |ndvi_before - ndvi_current| else 0
  [ndvi_change * (3/10),
   ndvi_change * (4/10),
   (1 - min 1 (|rainfall - 15| / 15)) * (25/100),
   (1 - min 1 (|temperature - 30| / 10)) * (2/10),
   (1 - min 1 (|humidity - 60| / 20)) * (1/10),
   (min 1 (wind_speed / 25)) * (8/100),
   5/100]

/-- The feature names of `SimpleMLModel`, in order. -/
def SimpleMLModel.feature_names : List String :=
  ["ndvi_before", "ndvi_current", "rainfall", "temperature", "humidity",
   "wind_speed", "days_since_sowing"]

/-- The weather dictionary of `get_weather_simulation`. -/
structure Weather where
  rainfall : ℚ
  temperature : ℚ
  humidity : ℚ
  wind_speed : ℚ
  deriving DecidableEq

/-- `get_weather_simulation` (xai-explainer.py:117): seeds the PRNG with
`int((latitude + longitude) * 1000)` and draws rainfall, temperature,
humidity, wind speed in order. -/
def get_weather_simulation (rng : Rng) (latitude longitude : ℚ) : Weather :=
  let seed := pyInt ((latitude + longitude) * 1000)
  { rainfall := uniform rng seed 0 0 25,
    temperature := uniform rng seed 1 25 40,
    humidity := uniform rng seed 2 40 80,
    wind_speed := uniform rng seed 3 8 18 }

/-- One feature-explanation entry. -/
structure Explanation where
  feature : String
  value : ℚ
  importance : ℚ
  contribution : ℚ
  impact : String
  deriving DecidableEq

/-- Build one explanation entry: `contribution = importance * value/(value+1)`,
`impact = increases` when contribution > 0.1 else `decreases`. -/
def mkExplanation (feature : String) (importance value : ℚ) : Explanation :=
  let contribution := importance * (value / (value + 1))
  { feature := feature, value := value, importance := importance,
    contribution := contribution,
    impact := if 1/10 < contribution then "increases" else "decreases" }

/-- Stable insertion into a list sorted by descending importance (an element
moves past another only when strictly more important). -/
def insertByImportance (x : Explanation) : List Explanation → List Explanation
  | [] => [x]
  | y :: ys =>
    if y.importance < x.importance then x :: y :: ys
    else y :: insertByImportance x ys

/-- `explanations.sort(key=importance, reverse=True)`: a stable sort by
descending importance. -/
def sortByImportance : List Explanation → List Explanation
  | [] => []
  | x :: xs => insertByImportance x (sortByImportance xs)

/-- The result dictionary of `predict_with_explanation` (minus the
presentation-only readable-explanation text). -/
structure XaiResult where
  predicted_loss : ℚ
  weather_factors : Weather
  feature_explanations : List Explanation
  confidence : ℚ
  deriving DecidableEq

/-- An optional trained regression model as `load_trained_model` would return
it: an opaque-to-us prediction function, its feature-name schema, and its
native feature importances. -/
structure TrainedModel where
  predictFn : List ℚ → ℚ
  feature_names : List String
  feature_importances : List ℚ

/-- The trained-model branch body of `predict_with_explanation`
(xai-explainer.py:139-206): map the live inputs onto the trained schema with
`0` defaults, predict, clamp, and explain via the model's native importances.
(The branch is dead code behind `if False and ...`.) -/
def trainedBranch (tm : TrainedModel) (ndvi_before ndvi_current latitude
    longitude : ℚ) (weather : Weather) : XaiResult :=
  let feature_values : String → Option ℚ := fun name =>
    if name = "Agriculture_Health_Index_mean" then some ((ndvi_before + ndvi_current) / 2)
    else if name = "NDVI_after_mean" then some ndvi_current
    else if name = "NDVI_before_mean" then some ndvi_before
    else if name = "NDVI_change_mean" then some (ndvi_current - ndvi_before)
    else if name = "NDVI_percent_change_mean" then
      some (if ndvi_before ≠ 0 then (ndvi_current - ndvi_before) / ndvi_before * 100 else 0)
    else if name = "precipitation_total_mm_mean" then some weather.rainfall
    else if name = "latitude" then some latitude
    else if name = "longitude" then some longitude
    else none
  let input_vector := tm.feature_names.map (fun name => (feature_values name).getD 0)
  let predicted_loss := max 0 (min 100 (tm.predictFn input_vector))
  let explanations := (tm.feature_names.zip (tm.feature_importances.zip input_vector)).map
    (fun p => mkExplanation p.1 p.2.1 p.2.2)
  { predicted_loss := predicted_loss, weather_factors := weather,
    feature_explanations := sortByImportance explanations, confidence := 95/100 }

/-- The rule-based fallback path of `predict_with_explanation`
(xai-explainer.py:211-257). -/
def simpleModelPath (ndvi_before ndvi_current days_since_sowing : ℚ)
    (weather : Weather) : XaiResult :=
  let predicted_loss0 := SimpleMLModel.predict ndvi_before ndvi_current
    weather.rainfall weather.temperature weather.humidity weather.wind_speed
    days_since_sowing
  let predicted_loss := max 0 (min 100 predicted_loss0)
  let importance_values := SimpleMLModel.get_feature_importance ndvi_before
    ndvi_current weather.rainfall weather.temperature weather.humidity
    weather.wind_speed days_since_sowing
  let features := [ndvi_before, ndvi_current, weather.rainfall,
    weather.temperature, weather.humidity, weather.wind_speed, days_since_sowing]
  let explanations := (SimpleMLModel.feature_names.zip
    (importance_values.zip features)).map (fun p => mkExplanation p.1 p.2.1 p.2.2)
  { predicted_loss := predicted_loss, weather_factors := weather,
    feature_explanations := sortByImportance explanations, confidence := 85/100 }

/-- `predict_with_explanation` (xai-explainer.py:128): the trained-model
branch guard is literally `if False and trained_model is not None and ...`. -/
def predict_with_explanation (trained : Option TrainedModel) (rng : Rng)
    (ndvi_before ndvi_current latitude longitude days_since_sowing : ℚ) : XaiResult :=
  let weather := get_weather_simulation rng latitude longitude
  if false && trained.isSome then
    match trained with
    | some tm => trainedBranch tm ndvi_before ndvi_current latitude longitude weather
    | none => simpleModelPath ndvi_before ndvi_current days_since_sowing weather
  else
    simpleModelPath ndvi_before ndvi_current days_since_sowing weather

/-- The PMFBY eligibility verdict (minus the presentation-only explanation
text; the threshold and loss carried by the dict are modelled). -/
structure EligibilityVerdict where
  eligible : Bool
  threshold : ℚ
  loss_percentage : ℚ
  deriving DecidableEq

/-- The PMFBY crop → minimum-loss-threshold table
(`thresholds.get(crop_type, thresholds[default])`). -/
def pmfby_thresholds (crop_type : String) : ℚ :=
  if crop_type = "rice" then 20
  else if crop_type = "wheat" then 20
  else if crop_type = "cotton" then 25
  else if crop_type = "sugarcane" then 30
  else if crop_type = "maize" then 20
  else if crop_type = "default" then 20
  else 20

/-- `check_pmfby_eligibility_with_explanation` (xai-explainer.py:311):
`eligible = loss_percentage >= threshold`, and the verdict carries the
threshold and the loss percentage used. -/
def check_pmfby_eligibility_with_explanation (loss_percentage : ℚ)
    (crop_type : String) : EligibilityVerdict :=
  let threshold := pmfby_thresholds crop_type
  { eligible := decide (threshold ≤ loss_percentage), threshold := threshold,
    loss_percentage := loss_percentage }

/-! ## Helper lemmas -/

/-- The common unclamped quantity shared by the two predictions of claim C6:
NDVI-decline base loss plus the humidity stress term (the rainfall,
temperature and wind terms are fixed by the two concrete vectors). -/
def stressFreeBase (ndvi_before ndvi_current humidity : ℚ) : ℚ :=
  (if 0 < ndvi_before then (ndvi_before - ndvi_current) / ndvi_before * 100 else 0) +
  (if humidity < 40 then 3 else if 85 < humidity then 4 else 0)

lemma clamp_nonneg (x : ℚ) : 0 ≤ max 0 (min 100 x) := le_max_left 0 _

lemma clamp_le_100 (x : ℚ) : max 0 (min 100 x) ≤ 100 :=
  max_le (by norm_num) (min_le_left _ _)

lemma clamp_mono {a b : ℚ} (h : a ≤ b) :
    max 0 (min 100 a) ≤ max 0 (min 100 b) :=
  max_le_max (le_refl 0) (min_le_min (le_refl 100) h)

lemma clamp_lt_iff (b : ℚ) :
    max 0 (min 100 b) < max 0 (min 100 (b + 32)) ↔ -32 < b ∧ b < 100 := by
  constructor
  · intro h
    constructor
    · by_contra hb
      push_neg at hb
      have e1 : max 0 (min 100 b) = 0 :=
        max_eq_left (le_trans (min_le_right _ _) (by linarith))
      have e2 : max 0 (min 100 (b + 32)) = 0 :=
        max_eq_left (le_trans (min_le_right _ _) (by linarith))
      rw [e1, e2] at h
      exact lt_irrefl 0 h
    · by_contra hb
      push_neg at hb
      have e1 : max 0 (min 100 b) = 100 := by
        rw [min_eq_left (by linarith)]; exact max_eq_right (by norm_num)
      have e2 : max 0 (min 100 (b + 32)) = 100 := by
        rw [min_eq_left (by linarith)]; exact max_eq_right (by norm_num)
      rw [e1, e2] at h
      exact lt_irrefl 100 h
  · rintro ⟨h1, h2⟩
    rcases le_or_lt b 0 with hb0 | hb0
    · have e1 : max 0 (min 100 b) = 0 :=
        max_eq_left (le_trans (min_le_right _ _) hb0)
      have e2 : min 100 (b + 32) = b + 32 := min_eq_right (by linarith)
      rw [e1, e2]
      exact lt_of_lt_of_le (by linarith) (le_max_right _ _)
    · have e1 : max 0 (min 100 b) = b := by
        rw [min_eq_right (le_of_lt h2)]; exact max_eq_right (le_of_lt hb0)
      rw [e1]
      rcases le_or_lt (b + 32) 100 with h4 | h4
      · rw [min_eq_right h4, max_eq_right (by linarith)]; linarith
      · rw [min_eq_left (le_of_lt h4), max_eq_right (by norm_num)]; linarith

lemma predict_nonneg (a b c d e f g : ℚ) : 0 ≤ SimpleMLModel.predict a b c d e f g :=
  le_max_left _ _

lemma predict_le_100 (a b c d e f g : ℚ) : SimpleMLModel.predict a b c d e f g ≤ 100 :=
  max_le (by norm_num) (min_le_left _ _)

lemma affected_area_bounds {area loss : ℚ} (ha : 0 ≤ area) (h0 : 0 ≤ loss)
    (h1 : loss ≤ 100) : 0 ≤ area * (loss / 100) ∧ area * (loss / 100) ≤ area := by
  constructor
  · positivity
  · nlinarith

/-! ## Claim theorems -/

/-- C3: the simulation estimator is deterministic in its coordinates: with the
PRNG modelled as a pure draw stream, the `ndvi_before`, `ndvi_current` and
`loss_percentage` fields of `analyze_crop_loss_simulation` depend only on
(latitude, longitude) — identical for any crop type and field area — and the
draws are taken from the stream seeded with `int(latitude * longitude * 1000)`. -/
theorem simulation_deterministic (rng : Rng) (latitude longitude : ℚ)
    (crop_type crop_type2 : String) (field_area field_area2 : ℚ) :
    (analyze_crop_loss_simulation rng latitude longitude crop_type field_area).ndvi_before
      = (analyze_crop_loss_simulation rng latitude longitude crop_type2 field_area2).ndvi_before
    ∧ (analyze_crop_loss_simulation rng latitude longitude crop_type field_area).ndvi_current
      = (analyze_crop_loss_simulation rng latitude longitude crop_type2 field_area2).ndvi_current
    ∧ (analyze_crop_loss_simulation rng latitude longitude crop_type field_area).loss_percentage
      = (analyze_crop_loss_simulation rng latitude longitude crop_type2 field_area2).loss_percentage
    ∧ (analyze_crop_loss_simulation rng latitude longitude crop_type field_area).ndvi_before
      = some (uniform rng (pyInt (latitude * longitude * 1000)) 2 (4/10) (8/10)) :=
  ⟨rfl, rfl, rfl, rfl⟩

/-- C7: PMFBY eligibility uses the fixed crop→threshold table (cotton 25,
sugarcane 30, all other crops — rice, wheat, maize and the default — 20), the
verdict is eligible exactly when `loss_percentage ≥ threshold` (boundary
inclusive: rice at 19.9 is ineligible, at 20.0 eligible), and the verdict
carries the threshold and loss percentage used. -/
theorem eligibility_check_correct :
    (∀ (loss : ℚ) (crop : String),
      (check_pmfby_eligibility_with_explanation loss crop).eligible = true
        ↔ pmfby_thresholds crop ≤ loss)
    ∧ (∀ crop : String, pmfby_thresholds crop =
        if crop = "cotton" then 25 else if crop = "sugarcane" then 30 else 20)
    ∧ (check_pmfby_eligibility_with_explanation (199/10) "rice").eligible = false
    ∧ (check_pmfby_eligibility_with_explanation 20 "rice").eligible = true
    ∧ (∀ (loss : ℚ) (crop : String),
        (check_pmfby_eligibility_with_explanation loss crop).threshold
          = pmfby_thresholds crop
        ∧ (check_pmfby_eligibility_with_explanation loss crop).loss_percentage = loss) := by
  refine ⟨?_, ?_, ?_, ?_, fun loss crop => ⟨rfl, rfl⟩⟩
  · intro loss crop
    simp [check_pmfby_eligibility_with_explanation]
  · intro crop
    simp only [pmfby_thresholds]
    split_ifs <;> simp_all
  · simp [check_pmfby_eligibility_with_explanation, pmfby_thresholds]
    norm_num
  · simp [check_pmfby_eligibility_with_explanation, pmfby_thresholds]

/-- C10: the trained-model branch of `predict_with_explanation` is dead code
behind `if False and ...`: for every input, and whether or not a trained model
is present, the function returns the rule-based `SimpleMLModel` result over
the 7-element feature vector, with confidence exactly 0.85. -/
theorem trained_branch_unreachable (trained : Option TrainedModel) (rng : Rng)
    (ndvi_before ndvi_current latitude longitude days_since_sowing : ℚ) :
    predict_with_explanation trained rng ndvi_before ndvi_current latitude
        longitude days_since_sowing
      = simpleModelPath ndvi_before ndvi_current days_since_sowing
          (get_weather_simulation rng latitude longitude)
    ∧ (predict_with_explanation trained rng ndvi_before ndvi_current latitude
        longitude days_since_sowing).confidence = 85/100
    ∧ (predict_with_explanation trained rng ndvi_before ndvi_current latitude
        longitude days_since_sowing).predicted_loss
      = SimpleMLModel.predict ndvi_before ndvi_current
          (get_weather_simulation rng latitude longitude).rainfall
          (get_weather_simulation rng latitude longitude).temperature
          (get_weather_simulation rng latitude longitude).humidity
          (get_weather_simulation rng latitude longitude).wind_speed
          days_since_sowing := by
  refine ⟨rfl, rfl, ?_⟩
  show max 0 (min 100 (SimpleMLModel.predict _ _ _ _ _ _ _)) = _
  rw [min_eq_right (predict_le_100 _ _ _ _ _ _ _),
    max_eq_right (predict_nonneg _ _ _ _ _ _ _)]

/-- C6 counterexample: with ndvi_before = 0.3, ndvi_current = 0.9, humidity
60 and crop age 60, the NDVI-decline base loss is −200, so both the stressed
vector (rainfall 2, temperature 40, wind 25) and the mild vector (rainfall 15,
temperature 30, wind 10) clamp to 0: the stressed prediction does NOT strictly
exceed the mild one. -/
theorem stress_terms_strict_cex :
    ¬ (SimpleMLModel.predict (3/10) (9/10) 15 30 60 10 60
        < SimpleMLModel.predict (3/10) (9/10) 2 40 60 25 60) := by
  have h1 : SimpleMLModel.predict (3/10) (9/10) 15 30 60 10 60 = 0 := by
    simp [SimpleMLModel.predict]; norm_num
  have h2 : SimpleMLModel.predict (3/10) (9/10) 2 40 60 25 60 = 0 := by
    simp [SimpleMLModel.predict]; norm_num
  rw [h1, h2]
  exact lt_irrefl 0

/-- C6 (amended): the stress terms monotonically increase the rule-based
prediction: for every fixed (ndvi_before, ndvi_current, humidity,
days_since_sowing), the prediction for rainfall=2, temperature=40, wind=25 is
greater than or equal to the prediction for rainfall=15, temperature=30,
wind=10, and strictly greater exactly when the shared unclamped quantity
(NDVI-decline plus humidity term) lies strictly between −32 and 100, i.e.
whenever the [0,100] clamp does not flatten both predictions together. -/
theorem stress_terms_monotone (ndvi_before ndvi_current humidity
    days_since_sowing : ℚ) :
    SimpleMLModel.predict ndvi_before ndvi_current 15 30 humidity 10 days_since_sowing
      ≤ SimpleMLModel.predict ndvi_before ndvi_current 2 40 humidity 25 days_since_sowing
    ∧ (SimpleMLModel.predict ndvi_before ndvi_current 15 30 humidity 10 days_since_sowing
        < SimpleMLModel.predict ndvi_before ndvi_current 2 40 humidity 25 days_since_sowing
      ↔ -32 < stressFreeBase ndvi_before ndvi_current humidity
        ∧ stressFreeBase ndvi_before ndvi_current humidity < 100) := by
  have hmild : SimpleMLModel.predict ndvi_before ndvi_current 15 30 humidity 10
      days_since_sowing
      = max 0 (min 100 (stressFreeBase ndvi_before ndvi_current humidity)) := by
    simp only [SimpleMLModel.predict, stressFreeBase]
    norm_num
  have hstress : SimpleMLModel.predict ndvi_before ndvi_current 2 40 humidity 25
      days_since_sowing
      = max 0 (min 100 (stressFreeBase ndvi_before ndvi_current humidity + 32)) := by
    simp only [SimpleMLModel.predict, stressFreeBase]
    norm_num
    congr 2
    ring
  rw [hmild, hstress]
  exact ⟨clamp_mono (by linarith), clamp_lt_iff _⟩

/-- C1 counterexample: with Earth Engine available but the provider raising,
and the CSV load failing (so the offline tier reports no success), the
orchestrator returns the simulation estimate — whose dict sets no
`data_source` key at all, so `data_source` is NOT `'simulation'`. -/
theorem orchestrator_fallback_cex :
    ¬ ((analyze_crop_loss true (.error "provider unavailable") 0
        (.error "csv missing") 0 (fun _ _ => 1/2) 17 78 "rice" 1).data_source
      = some "simulation") := by
  simp [analyze_crop_loss, analyze_crop_loss_real_time, analyze_crop_loss_offline,
    analyze_crop_loss_simulation]

/-- C1 (amended): the tier orchestrator `analyze_crop_loss` is a total
function (it never propagates a tier failure): when the satellite tier fails
(Earth Engine unavailable, or the real-time analysis raises) and the offline
matcher reports no success, it returns exactly the simulation estimate — but
that estimate carries no `data_source` field (the simulation dict never sets
one), rather than `data_source = 'simulation'`. -/
theorem orchestrator_fallback (eeAvailable : Bool)
    (provider : Except String ProviderData) (u : ℚ)
    (dfLoad : Except String (List Row)) (today : Int) (rng : Rng)
    (latitude longitude : ℚ) (crop_type : String) (field_area : ℚ)
    (hsat : eeAvailable = false ∨
      ∃ msg, analyze_crop_loss_real_time provider u crop_type field_area = .error msg)
    (hoff : analyze_crop_loss_offline dfLoad latitude longitude crop_type
      field_area today = none) :
    analyze_crop_loss eeAvailable provider u dfLoad today rng latitude longitude
        crop_type field_area
      = analyze_crop_loss_simulation rng latitude longitude crop_type field_area
    ∧ (analyze_crop_loss eeAvailable provider u dfLoad today rng latitude
        longitude crop_type field_area).data_source = none := by
  have hmain : analyze_crop_loss eeAvailable provider u dfLoad today rng latitude
      longitude crop_type field_area
      = analyze_crop_loss_simulation rng latitude longitude crop_type field_area := by
    rcases hsat with hee | ⟨msg, hmsg⟩
    · subst hee
      simp [analyze_crop_loss, hoff]
    · unfold analyze_crop_loss
      rw [hmsg]
      cases eeAvailable <;> simp [hoff]
  exact ⟨hmain, by rw [hmain]; rfl⟩

/-- C1 witness: the amended theorem applied at a concrete input where the
provider raises and the CSV is missing. -/
theorem orchestrator_fallback_witness :
    analyze_crop_loss true (.error "provider unavailable") 0 (.error "csv missing")
        0 (fun _ _ => 1/2) 17 78 "rice" 1
      = analyze_crop_loss_simulation (fun _ _ => 1/2) 17 78 "rice" 1
    ∧ (analyze_crop_loss true (.error "provider unavailable") 0
        (.error "csv missing") 0 (fun _ _ => 1/2) 17 78 "rice" 1).data_source
      = none :=
  orchestrator_fallback true (.error "provider unavailable") 0 (.error "csv missing")
    0 (fun _ _ => 1/2) 17 78 "rice" 1
    (Or.inr ⟨"provider unavailable", rfl⟩) rfl

/-- C8 counterexample: the real-time confidence is `90 + uniform(-5,5)` and
never consults the scene counts: with 1 scene per window and with 100 scenes
per window (same draw), the confidence is identical — more scenes do not
yield higher confidence. -/
theorem satellite_confidence_cex :
    (analyze_crop_loss_real_time (.ok ⟨1, 1, some (1/2), some (2/5)⟩) 0 "rice" 1).toOption.map
        Estimate.confidence
      = (analyze_crop_loss_real_time (.ok ⟨100, 100, some (1/2), some (2/5)⟩) 0 "rice" 1).toOption.map
        Estimate.confidence
    ∧ (analyze_crop_loss_real_time (.ok ⟨1, 1, some (1/2), some (2/5)⟩) 0 "rice" 1).toOption.map
        Estimate.confidence = some 90 := by
  refine ⟨rfl, ?_⟩
  simp only [analyze_crop_loss_real_time, Except.toOption, Option.map_some]
  norm_num

/-- C8 (amended): the satellite confidence equals `90 + u` where `u` is the
`uniform(-5,5)` draw — independent of the scene counts in either window — and
therefore lies in [85,95]; in particular it is capped at 95. -/
theorem satellite_confidence (sb sc sb2 sc2 : Nat) (nb nc u : ℚ)
    (crop_type : String) (field_area : ℚ) (hu1 : -5 ≤ u) (hu2 : u ≤ 5) :
    (analyze_crop_loss_real_time (.ok ⟨sb, sc, some nb, some nc⟩) u crop_type
        field_area).toOption.map Estimate.confidence = some (90 + u)
    ∧ (analyze_crop_loss_real_time (.ok ⟨sb2, sc2, some nb, some nc⟩) u crop_type
        field_area).toOption.map Estimate.confidence
      = (analyze_crop_loss_real_time (.ok ⟨sb, sc, some nb, some nc⟩) u crop_type
        field_area).toOption.map Estimate.confidence
    ∧ 85 ≤ 90 + u ∧ 90 + u ≤ 95 :=
  ⟨rfl, rfl, by linarith, by linarith⟩

/-- C8 witness: the amended theorem at scene counts 1 and 200 with draw 0. -/
theorem satellite_confidence_witness :
    (analyze_crop_loss_real_time (.ok ⟨1, 1, some (1/2), some (2/5)⟩) 0 "rice"
        1).toOption.map Estimate.confidence = some (90 + 0)
    ∧ (analyze_crop_loss_real_time (.ok ⟨200, 200, some (1/2), some (2/5)⟩) 0 "rice"
        1).toOption.map Estimate.confidence
      = (analyze_crop_loss_real_time (.ok ⟨1, 1, some (1/2), some (2/5)⟩) 0 "rice"
        1).toOption.map Estimate.confidence
    ∧ (85:ℚ) ≤ 90 + 0 ∧ (90:ℚ) + 0 ≤ 95 :=
  satellite_confidence 1 1 200 200 (1/2) (2/5) 0 "rice" 1 (by norm_num) (by norm_num)

/-- C2 counterexample: the satellite tier only clamps its loss from below
(`max(0, ...)`, no `min(..., 100)`): with ndvi_before = 0.5 and a negative
regional mean ndvi_current = −0.5 (NDVI ranges over [−1,1]), the loss is
200 % and the affected area is twice the field area. -/
theorem loss_bounds_cex :
    (analyze_crop_loss_real_time (.ok ⟨1, 1, some (1/2), some (-(1/2))⟩) 0 "rice"
        1).toOption.map Estimate.loss_percentage = some 200
    ∧ (analyze_crop_loss_real_time (.ok ⟨1, 1, some (1/2), some (-(1/2))⟩) 0 "rice"
        1).toOption.map Estimate.affected_area = some 2 := by
  constructor <;>
    · simp only [analyze_crop_loss_real_time, Except.toOption, Option.map_some]
      norm_num [max_def]

/-- C2 (amended): every tier's estimate has `0 ≤ loss_percentage` and
`affected_area = field_area * loss_percentage / 100` (hence
`0 ≤ affected_area ≤ field_area` for non-negative field area whenever the
loss is within [0,100]); the offline and simulation tiers always keep
`loss_percentage ≤ 100`, while the satellite tier keeps it ≤ 100 only under
the additional hypothesis `0 ≤ ndvi_current` — the code never clamps the
satellite loss from above. -/
theorem loss_bounds (sb sc : Nat) (nb nc u : ℚ) (crop_type : String)
    (field_area : ℚ) (dfLoad : Except String (List Row)) (latitude longitude : ℚ)
    (today : Int) (rng : Rng) (e eoff : Estimate)
    (harea : 0 ≤ field_area) (hnc : 0 ≤ nc)
    (hsat : analyze_crop_loss_real_time (.ok ⟨sb, sc, some nb, some nc⟩) u
      crop_type field_area = .ok e)
    (hoff : analyze_crop_loss_offline dfLoad latitude longitude crop_type
      field_area today = some eoff) :
    (0 ≤ e.loss_percentage ∧ e.loss_percentage ≤ 100
      ∧ e.affected_area = field_area * (e.loss_percentage / 100)
      ∧ 0 ≤ e.affected_area ∧ e.affected_area ≤ field_area)
    ∧ (0 ≤ eoff.loss_percentage ∧ eoff.loss_percentage ≤ 100
      ∧ eoff.affected_area = field_area * (eoff.loss_percentage / 100)
      ∧ 0 ≤ eoff.affected_area ∧ eoff.affected_area ≤ field_area)
    ∧ (0 ≤ (analyze_crop_loss_simulation rng latitude longitude crop_type
          field_area).loss_percentage
      ∧ (analyze_crop_loss_simulation rng latitude longitude crop_type
          field_area).loss_percentage ≤ 100
      ∧ (analyze_crop_loss_simulation rng latitude longitude crop_type
          field_area).affected_area
        = field_area * ((analyze_crop_loss_simulation rng latitude longitude
            crop_type field_area).loss_percentage / 100)
      ∧ 0 ≤ (analyze_crop_loss_simulation rng latitude longitude crop_type
          field_area).affected_area
      ∧ (analyze_crop_loss_simulation rng latitude longitude crop_type
          field_area).affected_area ≤ field_area) := by
  refine ⟨?_, ?_, ?_⟩
  · -- satellite tier
    simp only [analyze_crop_loss_real_time, Except.ok.injEq] at hsat
    subst hsat
    have h0 : (0:ℚ) ≤ if 0 < nb then max 0 ((nb - nc) / nb * 100) else 0 := by
      split_ifs
      · exact le_max_left _ _
      · exact le_refl 0
    have h100 : (if 0 < nb then max 0 ((nb - nc) / nb * 100) else 0) ≤ 100 := by
      split_ifs with h
      · refine max_le (by norm_num) ?_
        have hdiv : (nb - nc) / nb ≤ 1 := div_le_one_of_le₀ (by linarith) (le_of_lt h)
        nlinarith
      · norm_num
    obtain ⟨ha1, ha2⟩ := affected_area_bounds harea h0 h100
    exact ⟨h0, h100, rfl, ha1, ha2⟩
  · -- offline tier
    rcases dfLoad with msg | df
    · simp [analyze_crop_loss_offline] at hoff
    · rcases hfind : find_nearest_village_data df latitude longitude crop_type
        today with _ | r
      · simp [analyze_crop_loss_offline, hfind] at hoff
      · simp only [analyze_crop_loss_offline, hfind, Option.some.injEq] at hoff
        subst hoff
        have h0 : (0:ℚ) ≤ min (max 0 ((6/10 - r.NDVI_Value) / (6/10) * 100)
            + (if 35 < r.Temperature_Max_C then 5 else 0)
            + (if r.Rainfall_mm < 10 then 5 else 0)
            + (if r.Humidity_Percent < 30 then 3 else 0)) 100 := by
          refine le_min ?_ (by norm_num)
          have := le_max_left (0:ℚ) ((6/10 - r.NDVI_Value) / (6/10) * 100)
          split_ifs <;> linarith
        have h100 : min (max 0 ((6/10 - r.NDVI_Value) / (6/10) * 100)
            + (if 35 < r.Temperature_Max_C then 5 else 0)
            + (if r.Rainfall_mm < 10 then 5 else 0)
            + (if r.Humidity_Percent < 30 then 3 else 0)) 100 ≤ 100 :=
          min_le_right _ _
        obtain ⟨ha1, ha2⟩ := affected_area_bounds harea h0 h100
        exact ⟨h0, h100, rfl, ha1, ha2⟩
  · -- simulation tier
    have h0 : (0:ℚ) ≤ (analyze_crop_loss_simulation rng latitude longitude
        crop_type field_area).loss_percentage := le_max_left _ _
    have h100 : (analyze_crop_loss_simulation rng latitude longitude crop_type
        field_area).loss_percentage ≤ 100 :=
      max_le (by norm_num) (min_le_left _ _)
    obtain ⟨ha1, ha2⟩ := affected_area_bounds harea h0 h100
    exact ⟨h0, h100, rfl, ha1, ha2⟩

/-- Satellite estimate used to witness the amended C2 theorem:
what `analyze_crop_loss_real_time` returns for NDVI 0.5 → 0.4 on a
2-hectare rice field with confidence draw 0. -/
def satWitnessEstimate : Estimate :=
  { ndvi_before := some (1/2), ndvi_current := some (2/5), ndvi_value := none,
    loss_percentage := 20, confidence := 90, affected_area := 2/5,
    estimated_value := 16000, damage_cause := "Minor Stress",
    data_source := none, location := none, date := none }

/-- Historical row used to witness the offline tier: village Chevella,
crop Rice, day 0, NDVI 0.45, benign weather. -/
def offlineWitnessRow : Row :=
  { Village := "Chevella", Crop_Variety := "Rice", Date := 0,
    NDVI_Value := 9/20, Temperature_Max_C := 30, Temperature_Min_C := 20,
    Rainfall_mm := 20, Humidity_Percent := 50, Wind_Speed_kmh := 5 }

/-- Offline estimate used to witness the amended C2 theorem: what
`analyze_crop_loss_offline` returns on the singleton dataset
`[offlineWitnessRow]` for rice on day 0 with a 2-hectare field. -/
def offlineWitnessEstimate : Estimate :=
  { ndvi_before := none, ndvi_current := none, ndvi_value := some (9/20),
    loss_percentage := 25, confidence := 85, affected_area := 1/2,
    estimated_value := 20000, damage_cause := "Minor Stress",
    data_source := some "offline_csv", location := some "Chevella",
    date := some 0 }

/-- C2 witness: the amended bounds theorem applied at the concrete satellite,
offline and simulation inputs above. -/
theorem loss_bounds_witness :
    (0 ≤ satWitnessEstimate.loss_percentage
      ∧ satWitnessEstimate.loss_percentage ≤ 100
      ∧ satWitnessEstimate.affected_area
        = 2 * (satWitnessEstimate.loss_percentage / 100)
      ∧ 0 ≤ satWitnessEstimate.affected_area
      ∧ satWitnessEstimate.affected_area ≤ 2)
    ∧ (0 ≤ offlineWitnessEstimate.loss_percentage
      ∧ offlineWitnessEstimate.loss_percentage ≤ 100
      ∧ offlineWitnessEstimate.affected_area
        = 2 * (offlineWitnessEstimate.loss_percentage / 100)
      ∧ 0 ≤ offlineWitnessEstimate.affected_area
      ∧ offlineWitnessEstimate.affected_area ≤ 2)
    ∧ (0 ≤ (analyze_crop_loss_simulation (fun _ _ => 1/2) 17 78 "rice"
          2).loss_percentage
      ∧ (analyze_crop_loss_simulation (fun _ _ => 1/2) 17 78 "rice"
          2).loss_percentage ≤ 100
      ∧ (analyze_crop_loss_simulation (fun _ _ => 1/2) 17 78 "rice" 2).affected_area
        = 2 * ((analyze_crop_loss_simulation (fun _ _ => 1/2) 17 78 "rice"
            2).loss_percentage / 100)
      ∧ 0 ≤ (analyze_crop_loss_simulation (fun _ _ => 1/2) 17 78 "rice"
          2).affected_area
      ∧ (analyze_crop_loss_simulation (fun _ _ => 1/2) 17 78 "rice"
          2).affected_area ≤ 2) :=
  loss_bounds 1 1 (1/2) (2/5) 0 "rice" 2 (.ok [offlineWitnessRow]) 17 78 0
    (fun _ _ => 1/2) satWitnessEstimate offlineWitnessEstimate
    (by norm_num) (by norm_num)
    (by simp only [analyze_crop_loss_real_time, satWitnessEstimate, crop_values,
          Except.ok.injEq, Estimate.mk.injEq]
        norm_num [max_def])
    (by
      have hmatch : offlineRowMatch "rice" 0 offlineWitnessRow = true := by decide
      have hfind : find_nearest_village_data [offlineWitnessRow] 17 78 "rice" 0
          = some offlineWitnessRow := by
        simp [find_nearest_village_data, List.filter_cons, List.filter_nil,
          hmatch, foldlArgmin]
      simp only [analyze_crop_loss_offline, hfind, Option.some.injEq,
        Estimate.mk.injEq]
      norm_num [max_def, min_def, crop_values, offlineWitnessRow,
        offlineWitnessEstimate, show str_lower "rice" = "rice" from by decide])

/-- Specification of the `idxmin` fold: the selected element is a member of
`x :: xs`, attains the minimum `f`-value, and is the FIRST element attaining
it (every element strictly before it has a strictly larger `f`-value). -/
lemma foldlArgmin_spec {α : Type} (f : α → ℝ) :
    ∀ (xs : List α) (x : α),
      (∀ z ∈ x :: xs, f (foldlArgmin f x xs) ≤ f z)
      ∧ ∃ l1 l2, x :: xs = l1 ++ foldlArgmin f x xs :: l2
          ∧ ∀ z ∈ l1, f (foldlArgmin f x xs) < f z := by
  intro xs
  induction xs with
  | nil =>
    intro x
    refine ⟨?_, [], [], rfl, by simp⟩
    intro z hz
    rw [List.mem_singleton] at hz
    subst hz
    exact le_refl _
  | cons y ys ih =>
    intro x
    have hred : foldlArgmin f x (y :: ys)
        = foldlArgmin f (if f y < f x then y else x) ys := rfl
    by_cases hc : f y < f x
    · rw [if_pos hc] at hred
      obtain ⟨hmin, l1, l2, hsplit, hstrict⟩ := ih y
      constructor
      · intro z hz
        rw [hred]
        rcases List.mem_cons.mp hz with hzx | hz2
        · subst hzx
          have hy : f (foldlArgmin f y ys) ≤ f y := hmin y (List.mem_cons_self y ys)
          linarith
        · exact hmin z hz2
      · refine ⟨x :: l1, l2, ?_, ?_⟩
        · rw [hred, List.cons_append, ← hsplit]
        · intro z hz
          rw [hred]
          rcases List.mem_cons.mp hz with hzx | hz1
          · subst hzx
            have hy : f (foldlArgmin f y ys) ≤ f y := hmin y (List.mem_cons_self y ys)
            linarith
          · exact hstrict z hz1
    · rw [if_neg hc] at hred
      push_neg at hc
      obtain ⟨hmin, l1, l2, hsplit, hstrict⟩ := ih x
      constructor
      · intro z hz
        rw [hred]
        rcases List.mem_cons.mp hz with hzx | hz2
        · rw [hzx]
          exact hmin x (List.mem_cons_self x ys)
        · rcases List.mem_cons.mp hz2 with hzy | hz3
          · rw [hzy]
            have := hmin x (List.mem_cons_self x ys)
            linarith
          · exact hmin z (List.mem_cons_of_mem x hz3)
      · cases l1 with
        | nil =>
          rw [List.nil_append] at hsplit
          injection hsplit with h1 h2
          refine ⟨[], y :: ys, ?_, by simp⟩
          rw [hred, List.nil_append, ← h1]
        | cons a t =>
          rw [List.cons_append] at hsplit
          injection hsplit with h1 h2
          refine ⟨x :: y :: t, l2, ?_, ?_⟩
          · rw [hred, List.cons_append, List.cons_append, ← h2]
          · intro z hz
            rw [hred]
            have hax : f (foldlArgmin f x ys) < f x := by
              have := hstrict a (List.mem_cons_self a t)
              rw [← h1] at this
              exact this
            rcases List.mem_cons.mp hz with hzx | hz1
            · subst hzx
              exact hax
            · rcases List.mem_cons.mp hz1 with hzy | hz2
              · subst hzy
                linarith
              · exact hstrict z (List.mem_cons_of_mem a hz2)

/-- The `idxmin` fold selects a member of the list it folds over. -/
lemma foldlArgmin_mem {α : Type} (f : α → ℝ) (x : α) (xs : List α) :
    foldlArgmin f x xs ∈ x :: xs := by
  obtain ⟨_, l1, l2, hsplit, _⟩ := foldlArgmin_spec f xs x
  rw [hsplit]
  exact List.mem_append_right l1 (List.mem_cons_self _ _)

/-- C4: the offline matcher filters rows by case-insensitive crop variety and
a ±7-day window around the query date, reports no match exactly when this
filtered set is empty, and any returned record passes both filter
conditions. -/
theorem offline_filter_correct (df : List Row) (latitude longitude : ℚ)
    (crop_type : String) (date : Int) :
    (∀ r : Row, offlineRowMatch crop_type date r = true
      ↔ str_lower r.Crop_Variety = str_lower crop_type
        ∧ date - 7 ≤ r.Date ∧ r.Date ≤ date + 7)
    ∧ (find_nearest_village_data df latitude longitude crop_type date = none
      ↔ df.filter (offlineRowMatch crop_type date) = [])
    ∧ (∀ r, find_nearest_village_data df latitude longitude crop_type date = some r →
        str_lower r.Crop_Variety = str_lower crop_type
        ∧ date - 7 ≤ r.Date ∧ r.Date ≤ date + 7
        ∧ r ∈ df.filter (offlineRowMatch crop_type date)) := by
  refine ⟨?_, ?_, ?_⟩
  · intro r
    simp only [offlineRowMatch, Bool.and_eq_true, beq_iff_eq, decide_eq_true_eq]
    tauto
  · unfold find_nearest_village_data
    cases h : df.filter (offlineRowMatch crop_type date) with
    | nil => simp
    | cons a as => simp
  · intro r hr
    unfold find_nearest_village_data at hr
    cases h : df.filter (offlineRowMatch crop_type date) with
    | nil =>
      rw [h] at hr
      simp at hr
    | cons a as =>
      rw [h] at hr
      simp only [Option.some.injEq] at hr
      have hmemc : r ∈ a :: as := by
        rw [← hr]
        exact foldlArgmin_mem _ a as
      have hmem : r ∈ df.filter (offlineRowMatch crop_type date) := by
        rw [h]
        exact hmemc
      have hpred := (List.mem_filter.mp hmem).2
      simp only [offlineRowMatch, Bool.and_eq_true, beq_iff_eq,
        decide_eq_true_eq] at hpred
      exact ⟨hpred.1.1, hpred.1.2, hpred.2, hmemc⟩

/-- C4 witness: the filter facts at a concrete singleton dataset. -/
theorem offline_filter_correct_witness :
    str_lower offlineWitnessRow.Crop_Variety = str_lower "rice"
    ∧ (0:Int) - 7 ≤ offlineWitnessRow.Date ∧ offlineWitnessRow.Date ≤ 0 + 7
    ∧ offlineWitnessRow ∈ [offlineWitnessRow].filter (offlineRowMatch "rice" 0) :=
  (offline_filter_correct [offlineWitnessRow] 17 78 "rice" 0).2.2 offlineWitnessRow
    (by simp [find_nearest_village_data, List.filter_cons, List.filter_nil,
      show offlineRowMatch "rice" 0 offlineWitnessRow = true from by decide,
      foldlArgmin])

/-- C5: among rows passing the crop/date filter, the matcher returns the
first row attaining the minimum haversine distance to the query point (so the
returned row's distance is a lower bound for all filtered rows, and every row
before it in the filtered order is strictly farther); villages absent from
the three-entry coordinate table are assigned coordinate (0,0); and when all
filtered rows belong to one village, the result references that village
regardless of geometry. -/
theorem nearest_selection (df : List Row) (latitude longitude : ℚ)
    (crop_type : String) (date : Int) (r : Row)
    (h : find_nearest_village_data df latitude longitude crop_type date = some r) :
    (∀ r2 ∈ df.filter (offlineRowMatch crop_type date),
      rowDistance latitude longitude r ≤ rowDistance latitude longitude r2)
    ∧ (∃ l1 l2, df.filter (offlineRowMatch crop_type date) = l1 ++ r :: l2
        ∧ ∀ r2 ∈ l1,
          rowDistance latitude longitude r < rowDistance latitude longitude r2)
    ∧ (∀ v, (∀ r2 ∈ df.filter (offlineRowMatch crop_type date), r2.Village = v)
        → r.Village = v)
    ∧ (∀ v, v ≠ "Chevella" → v ≠ "Manchal" → v ≠ "Shankarpalle"
        → village_coords v = (0, 0)) := by
  unfold find_nearest_village_data at h
  cases hf : df.filter (offlineRowMatch crop_type date) with
  | nil =>
    rw [hf] at h
    simp at h
  | cons a as =>
    rw [hf] at h
    simp only [Option.some.injEq] at h
    obtain ⟨hmin, l1, l2, hsplit, hstrict⟩ :=
      foldlArgmin_spec (rowDistance latitude longitude) as a
    refine ⟨?_, ⟨l1, l2, ?_, ?_⟩, ?_, ?_⟩
    · intro r2 hr2
      rw [← h]
      exact hmin r2 hr2
    · rw [← h]
      exact hsplit
    · intro r2 hr2
      rw [← h]
      exact hstrict r2 hr2
    · intro v hv
      have hmem : r ∈ a :: as := by
        rw [← h]
        exact foldlArgmin_mem _ a as
      exact hv r hmem
    · intro v h1 h2 h3
      simp [village_coords, h1, h2, h3]

/-- C5 witness: on the singleton dataset the returned row is trivially the
distance minimizer, references its own village, and an off-table village
defaults to coordinate (0,0). -/
theorem nearest_selection_witness :
    rowDistance 17 78 offlineWitnessRow ≤ rowDistance 17 78 offlineWitnessRow
    ∧ offlineWitnessRow.Village = "Chevella"
    ∧ village_coords "Ibrahimpatnam" = (0, 0) := by
  obtain ⟨hmin, _, hvil, hdef⟩ := nearest_selection [offlineWitnessRow] 17 78
    "rice" 0 offlineWitnessRow
    (by simp [find_nearest_village_data, List.filter_cons, List.filter_nil,
      show offlineRowMatch "rice" 0 offlineWitnessRow = true from by decide,
      foldlArgmin])
  refine ⟨?_, ?_, hdef "Ibrahimpatnam" (by decide) (by decide) (by decide)⟩
  · exact hmin offlineWitnessRow (by
      simp [List.filter_cons,
        show offlineRowMatch "rice" 0 offlineWitnessRow = true from by decide])
  · exact hvil "Chevella" (by
      intro r2 hr2
      simp [List.filter_cons,
        show offlineRowMatch "rice" 0 offlineWitnessRow = true from by decide] at hr2
      subst hr2
      rfl)

/-- The standard haversine great-circle distance written from the spec's
words: half-angle sine terms in radians, `2 R atan2(sqrt a, sqrt (1-a))`,
with mean Earth radius 6371 km. -/
noncomputable def haversine_spec_formula (lat1 lon1 lat2 lon2 : ℝ) : ℝ :=
  2 * 6371 * atan2
    (Real.sqrt (Real.sin (radians (lat2 - lat1) / 2) ^ 2
      + Real.cos (radians lat1) * Real.cos (radians lat2)
        * Real.sin (radians (lon2 - lon1) / 2) ^ 2))
    (Real.sqrt (1 - (Real.sin (radians (lat2 - lat1) / 2) ^ 2
      + Real.cos (radians lat1) * Real.cos (radians lat2)
        * Real.sin (radians (lon2 - lon1) / 2) ^ 2)))

/-- C9: `haversine_distance` is a pure function with `distance(p,p) = 0` and
`distance(a,b) = distance(b,a)`, and it computes exactly the standard
haversine great-circle distance with mean Earth radius 6371 km. -/
theorem haversine_properties :
    (∀ lat lon : ℝ, haversine_distance lat lon lat lon = 0)
    ∧ (∀ lat1 lon1 lat2 lon2 : ℝ,
        haversine_distance lat1 lon1 lat2 lon2
          = haversine_distance lat2 lon2 lat1 lon1)
    ∧ (∀ lat1 lon1 lat2 lon2 : ℝ,
        haversine_distance lat1 lon1 lat2 lon2
          = haversine_spec_formula lat1 lon1 lat2 lon2) := by
  refine ⟨?_, ?_, ?_⟩
  · intro lat lon
    simp [haversine_distance, radians, atan2]
  · intro lat1 lon1 lat2 lon2
    have hphi : radians (lat1 - lat2) / 2 = -(radians (lat2 - lat1) / 2) := by
      simp only [radians]
      ring
    have hlam : radians (lon1 - lon2) / 2 = -(radians (lon2 - lon1) / 2) := by
      simp only [radians]
      ring
    have key : Real.sin (radians (lat2 - lat1) / 2) ^ 2
        + Real.cos (radians lat1) * Real.cos (radians lat2)
          * Real.sin (radians (lon2 - lon1) / 2) ^ 2
        = Real.sin (radians (lat1 - lat2) / 2) ^ 2
        + Real.cos (radians lat2) * Real.cos (radians lat1)
          * Real.sin (radians (lon1 - lon2) / 2) ^ 2 := by
      rw [hphi, hlam, Real.sin_neg, Real.sin_neg]
      ring
    simp only [haversine_distance]
    rw [key]
  · intro lat1 lon1 lat2 lon2
    simp only [haversine_distance, haversine_spec_formula]
    ring

end CropLoss
